import Mathlib

/-!
Shallow Lean embedding of the core of the `fake_news_detection_system`
repository: the text normalizer (`src/fake_news/preprocess.py`), the
inference facade and model store (`src/fake_news/model.py`), and the
dataset loader and splitter (`src/fake_news/data.py`).

Strings are modelled by Lean `String` (lists of characters), probabilities
by `ℚ`, a fitted sklearn pipeline by an abstract per-text probability
function (the pipeline's `predict_proba` for class 1 applied to one
preprocessed document), the filesystem directory holding the model
artifact by a partial map from file names to stored pipelines (joblib
serialization is modelled as exact, which is its contract), and a pandas
`DataFrame` by named, dtyped columns of Python-like scalar values.
-/

namespace FakeNews

/-! ## Text normalizer (`preprocess.py`) -/

/-- The character class of Python's regex `\s` (ASCII part): space, tab,
newline, carriage return, vertical tab and form feed.  This is the set
matched by `_whitespace_re = re.compile(r"\s+")` and stripped by
`str.strip()`. -/
def isSpace (c : Char) : Bool :=
  c = ' ' || c = '\t' || c = '\n' || c = '\r' || c = '\x0b' || c = '\x0c'

/-- One pass of `re.sub(r"\s+", " ", text)`: each maximal run of whitespace
characters is replaced by a single space.  `prev` records whether the
current position is inside a whitespace run whose replacement space has
already been emitted. -/
def collapseAux : Bool → List Char → List Char
  | _, [] => []
  | prev, c :: cs =>
    if isSpace c then
      if prev then collapseAux true cs else ' ' :: collapseAux true cs
    else c :: collapseAux false cs

/-- `re.sub(r"\s+", " ", ·)` on a character list. -/
def collapseWhitespace (l : List Char) : List Char :=
  collapseAux false l

/-- `str.strip()` on a character list: remove leading and trailing
whitespace. -/
def stripChars (l : List Char) : List Char :=
  ((l.dropWhile isSpace).reverse.dropWhile isSpace).reverse

/-- `normalize_whitespace` from `preprocess.py`: `text.strip()` followed by
`_whitespace_re.sub(" ", text)`. -/
def normalize_whitespace (s : String) : String :=
  String.mk (collapseWhitespace (stripChars s.data))

/-- `preprocess_texts` from `preprocess.py`. -/
def preprocess_texts (texts : List String) : List String :=
  texts.map normalize_whitespace

/-! ## Inference facade and model store (`model.py`) -/

/-- A fitted sklearn `Pipeline` (TF-IDF vectorizer + logistic regression),
abstracted as the probability of class 1 (fake) that its `predict_proba`
assigns to a single document. -/
structure Pipeline where
  prob : String → ℚ

/-- `predict_proba` from `model.py` on a nonempty batch: preprocess the
texts, then take the pipeline's class-1 probability column.  This
elementwise model is exact for batches with at least one row; sklearn's
zero-sample input validation, which makes the real call raise on an empty
batch before any probability is produced, is modelled separately by
`predict_proba_checked`. -/
def predict_proba (pipeline : Pipeline) (texts : List String) : List ℚ :=
  (preprocess_texts texts).map pipeline.prob

/-- `predict_label` from `model.py`: `[1 if p >= threshold else 0 for p in probs]`. -/
def predict_label (pipeline : Pipeline) (texts : List String)
    (threshold : ℚ) : List Int :=
  (predict_proba pipeline texts).map (fun p => if threshold ≤ p then 1 else 0)

/-- The `ValueError` raised by sklearn's `check_array` (default
`ensure_min_samples=1`, run inside `TfidfTransformer.transform` and again
in `LogisticRegression.decision_function`) when `pipeline.predict_proba`
receives a batch with zero samples:
`Found array with 0 sample(s) ... while a minimum of 1 is required`. -/
inductive SkError where
  | zeroSampleError
  deriving DecidableEq, Repr

/-- `pipeline.predict_proba(docs)[:, 1]` including sklearn's input
validation: a zero-row batch raises, a nonempty one yields the class-1
probability per document. -/
def pipeline_predict_proba (pipeline : Pipeline) (docs : List String) :
    Except SkError (List ℚ) :=
  if docs = [] then .error .zeroSampleError
  else .ok (docs.map pipeline.prob)

/-- `predict_proba` from `model.py` with the library's batch validation
kept: preprocess, then call the pipeline. -/
def predict_proba_checked (pipeline : Pipeline) (texts : List String) :
    Except SkError (List ℚ) :=
  pipeline_predict_proba pipeline (preprocess_texts texts)

/-- `predict_label` from `model.py` with the library's batch validation
kept: the list comprehension over `predict_proba`, which re-raises
whatever `predict_proba` raised. -/
def predict_label_checked (pipeline : Pipeline) (texts : List String)
    (threshold : ℚ) : Except SkError (List Int) :=
  (predict_proba_checked pipeline texts).map
    (fun probs => probs.map (fun p => if threshold ≤ p then 1 else 0))

/-- Error kinds surfaced by the data layer and the model store.  In the
Python source these are `ValueError` raised at the schema check, a
coercion failure inside `astype(int)`, the size validation inside
`train_test_split`, and `FileNotFoundError` in `load_model`. -/
inductive Err where
  | schemaError
  | labelFormatError
  | configError
  | modelNotFoundError
  deriving DecidableEq, Repr

/-- A model directory: a partial map from file names to stored (pickled)
pipelines. -/
def ModelDir : Type := String → Option Pipeline

/-- `save_model` from `model.py`: `joblib.dump(pipeline, model_dir / "model.joblib")`
(directory creation is a no-op in the map model; joblib round-trips the
fitted pipeline exactly). -/
def save_model (pipeline : Pipeline) (model_dir : ModelDir) : ModelDir :=
  fun name => if name = "model.joblib" then some pipeline else model_dir name

/-- `load_model` from `model.py`: raise `FileNotFoundError` if the artifact
is absent, otherwise `joblib.load` it. -/
def load_model (model_dir : ModelDir) : Except Err Pipeline :=
  match model_dir "model.joblib" with
  | some pipeline => .ok pipeline
  | none => .error .modelNotFoundError

/-! ## Dataset loader and splitter (`data.py`) -/

/-- A Python scalar as it can appear in a pandas column read from CSV:
a string, an integer, a boolean, or a missing value (`NaN`). -/
inductive PyVal where
  | str (s : String)
  | int (n : Int)
  | bool (b : Bool)
  | na
  deriving DecidableEq, Repr

/-- The pandas dtype of a column.  String columns (and mixed ones) have
dtype `object`; pure integer or boolean columns have their numeric dtype. -/
inductive Dtype where
  | object
  | int64
  | bool
  deriving DecidableEq, Repr

/-- `pd.isna` on one scalar. -/
def isNA (v : PyVal) : Bool :=
  match v with
  | .na => true
  | _ => false

/-- Decimal digits to their value, `none` if empty or a non-digit occurs.
Together with `pyIntOfString?` this models what CPython's `int(str)`
accepts (an optional sign followed by decimal digits, surrounding
whitespace ignored), which is what `astype(int)` applies to a string
element of an `object` column. -/
def digitsVal? (ds : List Char) : Option Nat :=
  match ds with
  | [] => none
  | _ =>
    if ds.all Char.isDigit then
      some (ds.foldl (fun a c => 10 * a + (c.toNat - 48)) 0)
    else none

/-- CPython `int(s)` on a string, `none` when it raises `ValueError`:
surrounding whitespace is ignored, then an optional sign must be followed
by decimal digits. -/
def pyIntOfString? (s : String) : Option Int :=
  match stripChars s.data with
  | '+' :: cs => (digitsVal? cs).map Int.ofNat
  | '-' :: cs => (digitsVal? cs).map (fun n => -(n : Int))
  | cs => (digitsVal? cs).map Int.ofNat

/-- `int(v)` applied to one scalar by `astype(int)`; `Err.labelFormatError`
models the `ValueError`/`TypeError` the cast raises on a non-numeric
value. -/
def pyToInt (v : PyVal) : Except Err Int :=
  match v with
  | .int n => .ok n
  | .bool b => .ok (if b then 1 else 0)
  | .str s =>
    match pyIntOfString? s with
    | some n => .ok n
    | none => .error .labelFormatError
  | .na => .error .labelFormatError

/-- The `mapping` dict of `_normalize_labels`, applied as
`mapping.get(v, v)`: the eight exact string keys map to `0`/`1`, every
other value is passed through unchanged. -/
def labelMap (v : PyVal) : PyVal :=
  match v with
  | .str s =>
    if s = "FAKE" ∨ s = "fake" ∨ s = "FALSE" ∨ s = "false" then .int 1
    else if s = "REAL" ∨ s = "real" ∨ s = "TRUE" ∨ s = "true" then .int 0
    else .str s
  | v => v

/-- Elementwise fallible conversion of a column, propagating the first
failure — the observable behavior of `series.map(...).astype(int)`. -/
def mapExcept (f : PyVal → Except Err Int) : List PyVal → Except Err (List Int)
  | [] => .ok []
  | v :: vs =>
    match f v with
    | .error e => .error e
    | .ok n =>
      match mapExcept f vs with
      | .error e => .error e
      | .ok ns => .ok (n :: ns)

/-- `_normalize_labels` from `data.py`: on an `object`-dtyped column, apply
the string mapping and cast to int; on any other dtype, cast to int
directly. -/
def normalize_labels (dtype : Dtype) (values : List PyVal) : Except Err (List Int) :=
  if dtype = Dtype.object then mapExcept (fun v => pyToInt (labelMap v)) values
  else mapExcept pyToInt values

/-- `str(v)`: the coercion `df[text_col].astype(str)` applies elementwise. -/
def pyStrOf (v : PyVal) : String :=
  match v with
  | .str s => s
  | .int n => toString n
  | .bool b => if b then "True" else "False"
  | .na => "nan"

/-- One named column of a parsed CSV file: its pandas dtype and values. -/
structure Column where
  dtype : Dtype
  values : List PyVal
  deriving Repr

/-- A pandas `DataFrame` as read by `pd.read_csv`: named columns, all of
one length (row alignment is by position via `List.zip`). -/
structure DataFrame where
  cols : List (String × Column)
  deriving Repr

/-- Column lookup by name. -/
def DataFrame.col? (df : DataFrame) (name : String) : Option Column :=
  (df.cols.find? (fun p => p.1 = name)).map Prod.snd

/-- `load_dataset_csv` from `data.py`: check both named columns exist
(else the `ValueError` modelled as `Err.schemaError`), drop rows that are
null in either column, normalize the labels, coerce the texts to
strings.  Returns the resulting `(text, label)` columns. -/
def load_dataset_csv (df : DataFrame) (text_col : String) (label_col : String) :
    Except Err (List String × List Int) :=
  match df.col? text_col, df.col? label_col with
  | some tc, some lc =>
    let kept := (tc.values.zip lc.values).filter (fun p => !isNA p.1 && !isNA p.2)
    match normalize_labels lc.dtype (kept.map Prod.snd) with
    | .ok labels => .ok (kept.map (fun p => pyStrOf p.1), labels)
    | .error e => .error e
  | _, _ => .error .schemaError

/-- The split produced by `train_val_split`. -/
structure Dataset where
  X_train : List String
  X_val : List String
  y_train : List Int
  y_val : List Int
  deriving Repr

/-- `train_val_split` from `data.py`, which delegates to sklearn's
`train_test_split(X, y, test_size=val_size, stratify=y, ...)`.  The size
validation is sklearn's `_validate_shuffle_split`: a float `test_size`
outside the open interval `(0,1)` raises `ValueError` (modelled as
`Err.configError`), as does an empty resulting train or test set.  The
seeded shuffle/stratification permutation is modelled as the identity
(no claim concerns which rows land where). -/
def train_val_split (texts : List String) (labels : List Int)
    (val_size : ℚ) : Except Err Dataset :=
  if val_size ≤ 0 ∨ 1 ≤ val_size then .error .configError
  else
    let n := texts.length
    let nTest := (Rat.ceil (val_size * n)).toNat
    let nTrain := n - nTest
    if nTrain = 0 ∨ nTest = 0 then .error .configError
    else .ok ⟨texts.drop nTest, texts.take nTest, labels.drop nTest, labels.take nTest⟩

/-! ## Invariant of normalized text, and concrete fixtures -/

/-- State machine accepting character lists in which every whitespace
character is a single literal space separating non-space characters and
no run ends the list.  `after` records whether the previous character was
a space. -/
def okFrom : Bool → List Char → Bool
  | after, [] => !after
  | after, c :: cs =>
    if isSpace c then !after && (c == ' ') && okFrom true cs
    else okFrom false cs

/-- A character list is in the image of the normalizer: empty, or starting
with a non-space character and accepted by `okFrom` (so: no leading or
trailing whitespace, no two adjacent whitespace characters, and every
whitespace character is a plain space). -/
def normalized (l : List Char) : Bool :=
  match l with
  | [] => true
  | c :: _ => !isSpace c && okFrom false l

/-- A concrete fitted pipeline assigning probability 1/2 to every document. -/
def probHalf : Pipeline := ⟨fun _ => 1/2⟩

/-- A concrete empty model directory. -/
def emptyDir : ModelDir := fun _ => none

/-- A concrete parsed CSV file with the label values of the spec's loader
example, `["FAKE","real","TRUE","false"]`. -/
def dfExample : DataFrame :=
  ⟨[("text", ⟨Dtype.object, [.str "t1", .str "t2", .str "t3", .str "t4"]⟩),
    ("label", ⟨Dtype.object, [.str "FAKE", .str "real", .str "TRUE", .str "false"]⟩)]⟩

/-! ## Lemmas about the text normalizer -/

theorem dropWhile_head_not (p : Char → Bool) :
    ∀ (l : List Char) (c : Char), (l.dropWhile p).head? = some c → p c = false := by
  intro l
  induction l with
  | nil => intro c h; simp [List.dropWhile] at h
  | cons a m ih =>
    intro c h
    rw [List.dropWhile_cons] at h
    by_cases hp : p a = true
    · rw [if_pos hp] at h
      exact ih c h
    · rw [if_neg hp] at h
      simp only [List.head?_cons, Option.some.injEq] at h
      subst h
      exact Bool.eq_false_iff.mpr hp

theorem dropWhile_getLast (p : Char → Bool) :
    ∀ l : List Char, l.dropWhile p ≠ [] → (l.dropWhile p).getLast? = l.getLast? := by
  intro l
  induction l with
  | nil => intro h; exact absurd rfl h
  | cons a m ih =>
    intro h
    rw [List.dropWhile_cons] at h ⊢
    by_cases hp : p a = true
    · rw [if_pos hp] at h ⊢
      have hm : m ≠ [] := by
        intro e
        subst e
        simp [List.dropWhile] at h
      rw [ih h]
      cases m with
      | nil => exact absurd rfl hm
      | cons b m2 => rw [List.getLast?_cons_cons]
    · rw [if_neg hp]

theorem dropWhile_of_head (p : Char → Bool) (l : List Char)
    (h : ∀ c, l.head? = some c → p c = false) : l.dropWhile p = l := by
  cases l with
  | nil => rfl
  | cons a m =>
    rw [List.dropWhile_cons, if_neg]
    rw [h a rfl]
    exact Bool.false_ne_true

theorem stripChars_head (l : List Char) (c : Char)
    (h : (stripChars l).head? = some c) : isSpace c = false := by
  unfold stripChars at h
  rw [List.head?_reverse] at h
  have hne : (l.dropWhile isSpace).reverse.dropWhile isSpace ≠ [] := by
    intro e
    rw [e] at h
    exact Option.noConfusion h
  rw [dropWhile_getLast isSpace _ hne, List.getLast?_reverse] at h
  exact dropWhile_head_not isSpace _ c h

theorem stripChars_getLast (l : List Char) (c : Char)
    (h : (stripChars l).getLast? = some c) : isSpace c = false := by
  unfold stripChars at h
  rw [List.getLast?_reverse] at h
  exact dropWhile_head_not isSpace _ c h

theorem okFrom_getLast :
    ∀ (l : List Char) (b : Bool), okFrom b l = true →
      ∀ c, l.getLast? = some c → isSpace c = false := by
  intro l
  induction l with
  | nil => intro b _ c hc; simp at hc
  | cons a m ih =>
    intro b hb c hc
    cases m with
    | nil =>
      simp only [List.getLast?_singleton, Option.some.injEq] at hc
      subst hc
      by_cases hs : isSpace a = true
      · rw [okFrom, if_pos hs] at hb
        simp [okFrom] at hb
      · exact Bool.eq_false_iff.mpr hs
    | cons a2 m2 =>
      rw [List.getLast?_cons_cons] at hc
      by_cases hs : isSpace a = true
      · rw [okFrom, if_pos hs] at hb
        simp only [Bool.and_eq_true] at hb
        exact ih true hb.2 c hc
      · rw [okFrom, if_neg hs] at hb
        exact ih false hb c hc

theorem collapseAux_eq_self :
    ∀ (l : List Char) (b : Bool), okFrom b l = true → collapseAux b l = l := by
  intro l
  induction l with
  | nil => intro b _; rfl
  | cons a m ih =>
    intro b hb
    by_cases hs : isSpace a = true
    · rw [okFrom, if_pos hs] at hb
      simp only [Bool.and_eq_true, Bool.not_eq_true', beq_iff_eq] at hb
      obtain ⟨⟨hb0, ha⟩, hm⟩ := hb
      subst hb0
      rw [collapseAux, if_pos hs, if_neg Bool.false_ne_true, ih true hm, ha]
    · rw [collapseAux, if_neg hs, ih false]
      rw [okFrom, if_neg hs] at hb
      exact hb

theorem collapseAux_ok :
    ∀ l : List Char, (∀ c, l.getLast? = some c → isSpace c = false) →
      okFrom false (collapseAux false l) = true ∧
      (l ≠ [] → okFrom true (collapseAux true l) = true) := by
  intro l
  induction l with
  | nil => exact fun _ => ⟨rfl, fun h => absurd rfl h⟩
  | cons a m ih =>
    intro h
    have hm : ∀ c, m.getLast? = some c → isSpace c = false := by
      cases m with
      | nil => intro c hc; simp at hc
      | cons a2 m2 =>
        intro c hc
        exact h c (by rw [List.getLast?_cons_cons]; exact hc)
    have hmne : isSpace a = true → m ≠ [] := by
      intro hs e
      subst e
      have := h a (by simp)
      rw [this] at hs
      exact Bool.false_ne_true hs
    refine ⟨?_, fun _ => ?_⟩
    · by_cases hs : isSpace a = true
      · rw [collapseAux, if_pos hs, if_neg Bool.false_ne_true]
        rw [okFrom, if_pos (by decide : isSpace ' ' = true)]
        simp only [Bool.not_false, beq_self_eq_true, Bool.and_self, Bool.true_and]
        exact (ih hm).2 (hmne hs)
      · rw [collapseAux, if_neg hs, okFrom, if_neg hs]
        exact (ih hm).1
    · by_cases hs : isSpace a = true
      · rw [collapseAux, if_pos hs, if_pos rfl]
        exact (ih hm).2 (hmne hs)
      · rw [collapseAux, if_neg hs, okFrom, if_neg hs]
        exact (ih hm).1

theorem normalized_collapse_strip (l : List Char) :
    normalized (collapseWhitespace (stripChars l)) = true := by
  have hlast := stripChars_getLast l
  cases hm : stripChars l with
  | nil => rfl
  | cons a t =>
    have ha : isSpace a = false := stripChars_head l a (by rw [hm]; rfl)
    have hok : okFrom false (collapseAux false (a :: t)) = true := by
      have := (collapseAux_ok (a :: t) (by rw [← hm]; exact hlast)).1
      exact this
    rw [collapseWhitespace, collapseAux, if_neg (by rw [ha]; exact Bool.false_ne_true)]
    rw [collapseAux, if_neg (by rw [ha]; exact Bool.false_ne_true)] at hok
    rw [normalized, ha]
    simpa using hok

theorem strip_eq_self_of_normalized (m : List Char) (h : normalized m = true) :
    stripChars m = m := by
  cases m with
  | nil => rfl
  | cons a t =>
    rw [normalized] at h
    simp only [Bool.and_eq_true, Bool.not_eq_true'] at h
    obtain ⟨ha, hok⟩ := h
    unfold stripChars
    rw [dropWhile_of_head isSpace (a :: t) (by intro c hc; simp at hc; rw [← hc]; exact ha)]
    rw [dropWhile_of_head isSpace (a :: t).reverse (by
      intro c hc
      rw [List.head?_reverse] at hc
      exact okFrom_getLast (a :: t) false hok c hc)]
    exact List.reverse_reverse _

theorem collapse_eq_self_of_normalized (m : List Char) (h : normalized m = true) :
    collapseWhitespace m = m := by
  cases m with
  | nil => rfl
  | cons a t =>
    rw [normalized] at h
    simp only [Bool.and_eq_true, Bool.not_eq_true'] at h
    exact collapseAux_eq_self (a :: t) false h.2

/-! ## Lemmas about the inference facade and the data layer -/

theorem length_predict_proba (p : Pipeline) (texts : List String) :
    (predict_proba p texts).length = texts.length := by
  simp [predict_proba, preprocess_texts]

theorem length_predict_label (p : Pipeline) (texts : List String) (t : ℚ) :
    (predict_label p texts t).length = texts.length := by
  simp [predict_label, predict_proba, preprocess_texts]

theorem pyToInt_error_kind (v : PyVal) (e : Err) (h : pyToInt v = Except.error e) :
    e = Err.labelFormatError := by
  cases v with
  | str s =>
    simp only [pyToInt] at h
    cases hp : pyIntOfString? s with
    | some n => rw [hp] at h; simp at h
    | none => rw [hp] at h; simp at h; exact h.symm
  | int n => simp [pyToInt] at h
  | bool b => simp [pyToInt] at h
  | na =>
    simp only [pyToInt, Except.error.injEq] at h
    exact h.symm

theorem mapExcept_error_kind (f : PyVal → Except Err Int)
    (hf : ∀ v e, f v = Except.error e → e = Err.labelFormatError) :
    ∀ (l : List PyVal) (e : Err), mapExcept f l = Except.error e →
      e = Err.labelFormatError := by
  intro l
  induction l with
  | nil => intro e h; simp [mapExcept] at h
  | cons v vs ih =>
    intro e h
    cases hv : f v with
    | error e2 =>
      simp only [mapExcept, hv] at h
      injection h with h2
      subst h2
      exact hf v e2 hv
    | ok n =>
      cases hm : mapExcept f vs with
      | error e2 =>
        simp only [mapExcept, hv, hm] at h
        injection h with h2
        subst h2
        exact ih e2 hm
      | ok ns => simp [mapExcept, hv, hm] at h

theorem normalize_labels_error_kind (dt : Dtype) (vs : List PyVal) (e : Err)
    (h : normalize_labels dt vs = Except.error e) : e = Err.labelFormatError := by
  unfold normalize_labels at h
  by_cases hd : dt = Dtype.object
  · rw [if_pos hd] at h
    exact mapExcept_error_kind _ (fun v e2 hv => pyToInt_error_kind (labelMap v) e2 hv) vs e h
  · rw [if_neg hd] at h
    exact mapExcept_error_kind _ (fun v e2 hv => pyToInt_error_kind v e2 hv) vs e h

theorem mapExcept_mem_error (f : PyVal → Except Err Int)
    (hf : ∀ v e, f v = Except.error e → e = Err.labelFormatError) :
    ∀ (l : List PyVal) (v : PyVal), v ∈ l →
      f v = Except.error Err.labelFormatError →
      mapExcept f l = Except.error Err.labelFormatError := by
  intro l
  induction l with
  | nil => intro v hv _; simp at hv
  | cons a m ih =>
    intro v hv hfv
    rw [List.mem_cons] at hv
    cases ha : f a with
    | error e2 =>
      have he := hf a e2 ha
      subst he
      simp [mapExcept, ha]
    | ok n =>
      have hv2 : v ∈ m := by
        cases hv with
        | inl hva =>
          exfalso
          rw [hva] at hfv
          rw [hfv] at ha
          exact Except.noConfusion ha
        | inr hvm => exact hvm
      simp [mapExcept, ha, ih v hv2 hfv]

/-! ## The claims -/

/-- C1: save/load round-trip preserves predictions — for every fitted
pipeline `p` and directory `d`, `load_model` after `save_model p d`
succeeds with a pipeline whose `predict_proba` and `predict_label`
outputs agree with those of `p` on every text list and threshold. -/
theorem save_load_roundtrip_preserves_predictions (p : Pipeline) (d : ModelDir)
    (texts : List String) (t : ℚ) :
    load_model (save_model p d) = Except.ok p ∧
    (load_model (save_model p d)).map (fun q => predict_proba q texts) =
      Except.ok (predict_proba p texts) ∧
    (load_model (save_model p d)).map (fun q => predict_label q texts t) =
      Except.ok (predict_label p texts t) := by
  have h : load_model (save_model p d) = Except.ok p := by
    simp [load_model, save_model]
  exact ⟨h, by rw [h]; rfl, by rw [h]; rfl⟩

/-- C2: thresholding is closed on the upper side — for every fitted
pipeline, `predict_label` yields `1` at position `i` iff the probability
`predict_proba` computes there is `≥ threshold`; and whenever a text's
probability is exactly `1/2`, that text is labelled `1` at threshold
`1/2` and `0` at threshold `51/100`. -/
theorem predict_label_threshold_closed (p : Pipeline) (texts : List String)
    (t : ℚ) (i : ℕ) (hi : i < texts.length) (s : String) :
    ((predict_label p texts t).get ⟨i, by rw [length_predict_label]; exact hi⟩ = 1 ↔
      t ≤ (predict_proba p texts).get ⟨i, by rw [length_predict_proba]; exact hi⟩) ∧
    (p.prob (normalize_whitespace s) = 1/2 →
      predict_label p [s] (1/2) = [1] ∧ predict_label p [s] (51/100) = [0]) := by
  refine ⟨?_, fun hs => ⟨?_, ?_⟩⟩
  · simp only [predict_label, List.get_eq_getElem, List.getElem_map]
    split
    · rename_i h
      simp [h]
    · rename_i h
      simp [h]
  · simp only [predict_label, predict_proba, preprocess_texts, List.map, hs]
    norm_num
  · simp only [predict_label, predict_proba, preprocess_texts, List.map, hs]
    norm_num

/-- Witness for C2 at the constant-1/2 pipeline, a one-element batch and
index 0. -/
theorem predict_label_threshold_closed_witness :
    (0 : ℕ) < (["doc"] : List String).length ∧
    (((predict_label probHalf ["doc"] (1/2)).get
        ⟨0, by rw [length_predict_label]; exact Nat.zero_lt_one⟩ = 1 ↔
      (1/2 : ℚ) ≤ (predict_proba probHalf ["doc"]).get
        ⟨0, by rw [length_predict_proba]; exact Nat.zero_lt_one⟩) ∧
    (probHalf.prob (normalize_whitespace "x") = 1/2 →
      predict_label probHalf ["x"] (1/2) = [1] ∧
      predict_label probHalf ["x"] (51/100) = [0])) :=
  ⟨Nat.zero_lt_one,
    predict_label_threshold_closed probHalf ["doc"] (1/2) 0 Nat.zero_lt_one "x"⟩

/-- C3: the claim says empty batches return empty sequences, but the code
raises — via `predict_proba_checked`, which keeps sklearn's zero-sample
input validation, both facade functions error on the empty text list
instead of returning `[]`. -/
theorem predict_empty_batch_raises (p : Pipeline) (t : ℚ) :
    predict_proba_checked p [] = Except.error SkError.zeroSampleError ∧
    predict_label_checked p [] t = Except.error SkError.zeroSampleError :=
  ⟨rfl, rfl⟩

/-- C4 counterexample: the mapping is not case-insensitive — the
mixed-case label `"Fake"` is not mapped to `1`; it falls through the
string table and the integer cast fails. -/
theorem label_mixed_case_counterexample :
    normalize_labels Dtype.object [PyVal.str "Fake"] =
      Except.error Err.labelFormatError ∧
    normalize_labels Dtype.object [PyVal.str "Fake"] ≠ Except.ok [1] := by
  refine ⟨rfl, ?_⟩
  intro h
  rw [show normalize_labels Dtype.object [PyVal.str "Fake"] =
    Except.error Err.labelFormatError from rfl] at h
  exact Except.noConfusion h

/-- C4 (amended): label normalization maps exactly the all-uppercase and
all-lowercase spellings `FAKE/fake/FALSE/false` to `1` and
`REAL/real/TRUE/true` to `0`, coerces already-numeric labels to integer
as-is, and loading a file with label values
`["FAKE","real","TRUE","false"]` yields `[1,0,0,1]`. -/
theorem label_normalization_exact_case (n : Int) :
    normalize_labels Dtype.object [PyVal.str "FAKE"] = Except.ok [1] ∧
    normalize_labels Dtype.object [PyVal.str "fake"] = Except.ok [1] ∧
    normalize_labels Dtype.object [PyVal.str "FALSE"] = Except.ok [1] ∧
    normalize_labels Dtype.object [PyVal.str "false"] = Except.ok [1] ∧
    normalize_labels Dtype.object [PyVal.str "REAL"] = Except.ok [0] ∧
    normalize_labels Dtype.object [PyVal.str "real"] = Except.ok [0] ∧
    normalize_labels Dtype.object [PyVal.str "TRUE"] = Except.ok [0] ∧
    normalize_labels Dtype.object [PyVal.str "true"] = Except.ok [0] ∧
    normalize_labels Dtype.object [PyVal.int n] = Except.ok [n] ∧
    load_dataset_csv dfExample "text" "label" =
      Except.ok (["t1", "t2", "t3", "t4"], [1, 0, 0, 1]) :=
  ⟨rfl, rfl, rfl, rfl, rfl, rfl, rfl, rfl, rfl, rfl⟩

/-- C5: the text normalizer is idempotent, and the spec's example holds:
`normalize_whitespace "  a   b " = "a b"`. -/
theorem normalize_whitespace_idempotent :
    (∀ s : String,
      normalize_whitespace (normalize_whitespace s) = normalize_whitespace s) ∧
    normalize_whitespace "  a   b " = "a b" := by
  constructor
  · intro s
    have h1 : normalized (collapseWhitespace (stripChars s.data)) = true :=
      normalized_collapse_strip s.data
    show String.mk (collapseWhitespace (stripChars
      (collapseWhitespace (stripChars s.data)))) =
      String.mk (collapseWhitespace (stripChars s.data))
    rw [strip_eq_self_of_normalized _ h1, collapse_eq_self_of_normalized _ h1]
  · rfl

/-- C6: a non-numeric string label outside the eight recognized spellings
makes label normalization fail with the coercion failure, never passing
the value through. -/
theorem unrecognized_label_coercion_fails (vs : List PyVal) (s : String)
    (hnum : pyIntOfString? s = none)
    (hrec : s ≠ "FAKE" ∧ s ≠ "fake" ∧ s ≠ "FALSE" ∧ s ≠ "false" ∧
      s ≠ "REAL" ∧ s ≠ "real" ∧ s ≠ "TRUE" ∧ s ≠ "true")
    (hmem : PyVal.str s ∈ vs) :
    normalize_labels Dtype.object vs = Except.error Err.labelFormatError := by
  obtain ⟨h1, h2, h3, h4, h5, h6, h7, h8⟩ := hrec
  unfold normalize_labels
  rw [if_pos rfl]
  apply mapExcept_mem_error _
    (fun v e hv => pyToInt_error_kind (labelMap v) e hv) vs (PyVal.str s) hmem
  have hmap : labelMap (PyVal.str s) = PyVal.str s := by
    simp only [labelMap]
    rw [if_neg (by simp [h1, h2, h3, h4]), if_neg (by simp [h5, h6, h7, h8])]
  rw [hmap]
  simp [pyToInt, hnum]

/-- Witness for C6 at the label value `"banana"`. -/
theorem unrecognized_label_coercion_fails_witness :
    (pyIntOfString? "banana" = none ∧
      ("banana" ≠ "FAKE" ∧ "banana" ≠ "fake" ∧ "banana" ≠ "FALSE" ∧
        "banana" ≠ "false" ∧ "banana" ≠ "REAL" ∧ "banana" ≠ "real" ∧
        "banana" ≠ "TRUE" ∧ "banana" ≠ "true") ∧
      PyVal.str "banana" ∈ [PyVal.str "banana"]) ∧
    normalize_labels Dtype.object [PyVal.str "banana"] =
      Except.error Err.labelFormatError :=
  ⟨⟨rfl, by decide, by decide⟩,
    unrecognized_label_coercion_fails [PyVal.str "banana"] "banana" rfl
      (by decide) (by decide)⟩

/-- C7: the loader's schema failure happens exactly when one of the two
named columns is absent from the file. -/
theorem load_dataset_schema_error_iff (df : DataFrame)
    (text_col label_col : String) :
    load_dataset_csv df text_col label_col = Except.error Err.schemaError ↔
      (df.col? text_col = none ∨ df.col? label_col = none) := by
  unfold load_dataset_csv
  cases ht : df.col? text_col with
  | none => cases hl : df.col? label_col <;> simp
  | some tc =>
    cases hl : df.col? label_col with
    | none => simp
    | some lc =>
      simp only [Option.some.injEq]
      cases hn : normalize_labels lc.dtype
          (((tc.values.zip lc.values).filter
            (fun q => !isNA q.1 && !isNA q.2)).map Prod.snd) with
      | ok labels => simp [hn]
      | error e =>
        have he := normalize_labels_error_kind _ _ _ hn
        subst he
        simp [hn]

/-- C8: loading a model from a directory fails with the model-not-found
failure exactly when no artifact is stored at `model.joblib` there. -/
theorem load_model_not_found_iff (d : ModelDir) :
    load_model d = Except.error Err.modelNotFoundError ↔
      d "model.joblib" = none := by
  cases h : d "model.joblib" <;> simp [load_model, h]

/-- C9: a validation fraction outside the open interval (0,1) makes the
splitter fail with the configuration failure instead of producing a
partition. -/
theorem train_val_split_rejects_bad_fraction (texts : List String)
    (labels : List Int) (val_size : ℚ) (h : val_size ≤ 0 ∨ 1 ≤ val_size) :
    train_val_split texts labels val_size = Except.error Err.configError := by
  unfold train_val_split
  rw [if_pos h]

/-- Witness for C9 at fraction 2 on a one-row dataset. -/
theorem train_val_split_rejects_bad_fraction_witness :
    ((2 : ℚ) ≤ 0 ∨ (1 : ℚ) ≤ 2) ∧
    train_val_split ["a"] [1] 2 = Except.error Err.configError :=
  ⟨Or.inr one_le_two,
    train_val_split_rejects_bad_fraction ["a"] [1] 2 (Or.inr one_le_two)⟩

/-- C10: a non-`object` label column receives no string mapping and is
cast to integer directly, so boolean `True/False` yield `1/0` — the
opposite polarity of the string encodings `"TRUE"/"FALSE" ↦ 0/1`. -/
theorem nonobject_dtype_casts_directly (dtype : Dtype)
    (h : dtype ≠ Dtype.object) (values : List PyVal) :
    normalize_labels dtype values = mapExcept pyToInt values ∧
    normalize_labels Dtype.bool [PyVal.bool true, PyVal.bool false] =
      Except.ok [1, 0] ∧
    normalize_labels Dtype.object [PyVal.str "TRUE", PyVal.str "FALSE"] =
      Except.ok [0, 1] := by
  refine ⟨?_, rfl, rfl⟩
  unfold normalize_labels
  rw [if_neg h]

/-- Witness for C10 at the boolean dtype. -/
theorem nonobject_dtype_casts_directly_witness :
    Dtype.bool ≠ Dtype.object ∧
    (normalize_labels Dtype.bool [PyVal.bool true] =
        mapExcept pyToInt [PyVal.bool true] ∧
      normalize_labels Dtype.bool [PyVal.bool true, PyVal.bool false] =
        Except.ok [1, 0] ∧
      normalize_labels Dtype.object [PyVal.str "TRUE", PyVal.str "FALSE"] =
        Except.ok [0, 1]) :=
  ⟨by decide, nonobject_dtype_casts_directly Dtype.bool (by decide) [PyVal.bool true]⟩

end FakeNews
